import Mathlib

/-!
Verification of the iris prediction service (`app/main.py`) and its training
script (`create_model.py`).

The embedding is shallow: the FastAPI handlers become pure Lean functions of
the loaded model and the request payload; the pydantic validation of
`IrisInput` becomes an explicit function from a JSON-like payload to either a
typed record or a list of field errors; the training script becomes a function
that returns the fitted model together with a trace of the library calls and
effects it performs.  Floating-point measurements are modelled as rationals.
-/

namespace IrisApp

/-- A JSON value as it can appear in a request payload field.  A numeric
string carries the rational it spells, so that coercibility to a float is a
constructor distinction rather than a string parse. -/
inductive JsonValue where
  | num (q : ℚ)
  | numStr (q : ℚ)
  | nonNumStr (s : String)
  | null
  deriving DecidableEq, Repr

/-- A request payload: the fields of the JSON object body, in order. -/
abbrev Payload := List (String × JsonValue)

/-- The typed input schema of `app/main.py` (`class IrisInput(BaseModel)`):
four required float fields. -/
structure IrisInput where
  sepal_length : ℚ
  sepal_width : ℚ
  petal_length : ℚ
  petal_width : ℚ
  deriving DecidableEq, Repr

/-- Why a field failed validation. -/
inductive FieldErrorReason where
  | missing
  | notNumeric
  deriving DecidableEq, Repr

/-- A structured validation error: offending field name plus reason. -/
structure FieldError where
  field : String
  reason : FieldErrorReason
  deriving DecidableEq, Repr

/-- Modelled from the spec: pydantic coercion of a (possibly absent) payload
value to a `float` field.  An absent field is an error; a JSON number or a
numeric string coerces; anything else is not numeric. -/
def coerceFloat (v : Option JsonValue) : Except FieldErrorReason ℚ :=
  match v with
  | none => .error .missing
  | some (.num q) => .ok q
  | some (.numStr q) => .ok q
  | some (.nonNumStr _) => .error .notNumeric
  | some .null => .error .notNumeric

/-- The four required field names of `IrisInput`, in declaration order. -/
def requiredFields : List String :=
  ["sepal_length", "sepal_width", "petal_length", "petal_width"]

/-- Extract one required field from the payload, tagging failures with the
field name. -/
def getField (p : Payload) (name : String) : Except FieldError ℚ :=
  match coerceFloat (p.lookup name) with
  | .ok q => .ok q
  | .error r => .error ⟨name, r⟩

/-- All validation errors of a payload, in field declaration order. -/
def fieldErrors (p : Payload) : List FieldError :=
  requiredFields.filterMap (fun n =>
    match getField p n with
    | .ok _ => none
    | .error e => some e)

/-- Modelled from the spec: pydantic validation of `IrisInput`.  Extra payload
fields are never consulted; if every required field is present and numeric the
typed record is built, otherwise the structured errors are returned. -/
def validateIrisInput (p : Payload) : Except (List FieldError) IrisInput :=
  match getField p "sepal_length", getField p "sepal_width",
        getField p "petal_length", getField p "petal_width" with
  | .ok sl, .ok sw, .ok pl, .ok pw => .ok ⟨sl, sw, pl, pw⟩
  | _, _, _, _ => .error (fieldErrors p)

/-- A fitted classifier as the predictor sees it: its inference call, taking
one feature vector to an integer class label. -/
structure FittedClassifier where
  predictFn : List ℚ → ℤ

/-- The batch inference call `model.predict(features)`: a list of feature
vectors to a list of labels. -/
def FittedClassifier.predictBatch (m : FittedClassifier)
    (features : List (List ℚ)) : List ℤ :=
  features.map m.predictFn

/-- Response body of `GET /`. -/
structure WelcomeResponse where
  message : String
  deriving DecidableEq, Repr

/-- Response body of a successful `POST /predict/`. -/
structure PredictResponse where
  prediction : ℤ
  deriving DecidableEq, Repr

/-- The handler `read_root` of `app/main.py`. -/
def read_root : WelcomeResponse :=
  ⟨"Welcome to the ML Model API"⟩

/-- The handler `predict` of `app/main.py`, after validation: assemble the
singleton batch `[[sepal_length, sepal_width, petal_length, petal_width]]`,
call the model, and return `int(prediction[0])` (the labels are already
integers, so the conversion is the identity). -/
def predict (m : FittedClassifier) (input_data : IrisInput) : PredictResponse :=
  let features := [[input_data.sepal_length,
                    input_data.sepal_width,
                    input_data.petal_length,
                    input_data.petal_width]]
  let prediction := m.predictBatch features
  ⟨prediction.headD 0⟩

/-- A request to the service. -/
inductive Request where
  | root
  | predictPost (payload : Payload)

/-- A response from the service. -/
inductive Response where
  | ok200root (body : WelcomeResponse)
  | ok200predict (body : PredictResponse)
  | err422 (errors : List FieldError)
  deriving DecidableEq, Repr

/-- Routing of one request: `GET /` runs `read_root`; `POST /predict/` first
validates the body against `IrisInput` and only on success runs `predict`. -/
def respond (m : FittedClassifier) : Request → Response
  | .root => .ok200root read_root
  | .predictPost p =>
      match validateIrisInput p with
      | .ok input_data => .ok200predict (predict m input_data)
      | .error errs => .err422 errs

/-- The server state: just the model loaded at startup.  Neither handler in
`app/main.py` assigns to any module-level name, so this is the whole state. -/
structure ServerState where
  model : FittedClassifier

/-- Handling one request: produce the response and the (unchanged) state. -/
def handle (s : ServerState) (r : Request) : Response × ServerState :=
  (respond s.model r, s)

/-- Run the server over a sequence of requests, threading the state. -/
def runServer (s : ServerState) : List Request → List Response × ServerState
  | [] => ([], s)
  | r :: rs =>
      let (resp, s1) := handle s r
      let (resps, s2) := runServer s1 rs
      (resp :: resps, s2)

theorem runServer_eq (s : ServerState) (reqs : List Request) :
    runServer s reqs = (reqs.map (respond s.model), s) := by
  induction reqs with
  | nil => rfl
  | cons r rs ih => simp [runServer, handle, ih]

/-! ## The trainer (`create_model.py`) -/

/-- The serialized artifact stored at a file path: either a valid pickled
model or corrupt bytes that `joblib.load` cannot deserialize. -/
inductive Artifact where
  | valid (m : FittedClassifier)
  | corrupt

/-- The label column of the iris dataset loaded by `load_iris()`: 150 samples,
sorted by class, 50 of each of the three classes 0, 1, 2. -/
def iris_target : List ℤ :=
  List.replicate 50 0 ++ List.replicate 50 1 ++ List.replicate 50 2

/-- Result of `train_test_split(X, y, ...)`, unpacked exactly as in the
script: `X_train, X_test, y_train, y_test`. -/
structure SplitResult where
  X_train : List (List ℚ)
  X_test : List (List ℚ)
  y_train : List ℤ
  y_test : List ℤ

/-- Modelled from the spec: sklearn's `train_test_split`.  The rows are paired
with their labels and shuffled by the permutation that the random source
realizes at the given seed (the `shuffle` argument); the first
`ceil(test_size * n)` shuffled samples are the held-out subset and the
remaining samples are the training subset. -/
def train_test_split (shuffle : ℕ → List (List ℚ × ℤ) → List (List ℚ × ℤ))
    (X : List (List ℚ)) (y : List ℤ) (test_size : ℚ) (random_state : ℕ) :
    SplitResult :=
  let n := X.length
  let n_test := ⌈test_size * (n : ℚ)⌉.toNat
  let shuffled := shuffle random_state (X.zip y)
  let test := shuffled.take n_test
  let train := shuffled.drop n_test
  ⟨train.map Prod.fst, test.map Prod.fst, train.map Prod.snd, test.map Prod.snd⟩

/-- A learned decision structure: given the training data, it picks for any
query vector the index of a training sample whose label is returned. -/
abbrev Selector := List (List ℚ) → List ℤ → List ℚ → ℕ

/-- Modelled from the spec: fitting `RandomForestClassifier()` and predicting
with it.  A fitted forest classifier returns, for any input, a label from the
training label set (`classes_` is derived from `y_train` and `predict` takes an
argmax over it); which training label wins is abstracted by the selector. -/
def fitForest (sel : Selector) (X_train : List (List ℚ)) (y_train : List ℤ)
    (x : List ℚ) : ℤ :=
  match y_train[sel X_train y_train x]? with
  | some z => z
  | none => y_train.headD 0

/-- One step in the trainer's trace of library calls and effects.  The
`emitMetric` constructor is the vocabulary for an evaluation-metric emission;
`create_model` never produces it. -/
inductive TrainerStep where
  | loadIris (nSamples nLabels : ℕ)
  | splitCall (test_size : ℚ) (random_state : ℕ) (nTrain nTest : ℕ)
  | fitCall (nTrainRows nTrainLabels : ℕ)
  | dump (path : String) (content : Artifact)
  | printLine (line : String)
  | emitMetric (value : ℚ)

/-- The script `create_model.py`, line by line: load the full iris dataset,
split it with `test_size=0.2, random_state=42`, fit the forest on the training
subset, dump the fitted model to `app/model.pkl`, print the completion
message.  The feature rows `X` and the randomness realized at the seed are
parameters of the embedding; the script itself takes no inputs. -/
def create_model (X : List (List ℚ))
    (shuffle : ℕ → List (List ℚ × ℤ) → List (List ℚ × ℤ)) (sel : Selector) :
    FittedClassifier × List TrainerStep :=
  let y := iris_target
  let split := train_test_split shuffle X y (1/5) 42
  let model : FittedClassifier := ⟨fitForest sel split.X_train split.y_train⟩
  (model,
   [.loadIris X.length y.length,
    .splitCall (1/5) 42 split.X_train.length split.X_test.length,
    .fitCall split.X_train.length split.y_train.length,
    .dump "app/model.pkl" (.valid model),
    .printLine "Model trained and saved at app/model.pkl"])

/-- A filesystem: what artifact, if any, each path holds. -/
abbrev FileSystem := String → Option Artifact

/-- Effect of one trainer step on the filesystem: `dump` overwrites its path,
everything else leaves every file unchanged. -/
def applyStep (fs : FileSystem) : TrainerStep → FileSystem
  | .dump p a => fun q => if q = p then some a else fs q
  | _ => fs

/-- The filesystem after running a trace of trainer steps. -/
def runSteps (fs : FileSystem) (steps : List TrainerStep) : FileSystem :=
  steps.foldl applyStep fs

/-! ## Predictor startup (`app/main.py`, module level) -/

/-- Why startup failed. -/
inductive LoadError where
  | fileMissing
  | corruptArtifact
  deriving DecidableEq, Repr

/-- Modelled from the spec: `joblib.load(path)` reads exactly its path and
either deserializes a valid artifact or raises.  The second component is the
list of paths the call reads. -/
def joblib_load (fs : FileSystem) (path : String) :
    Except LoadError FittedClassifier × List String :=
  (match fs path with
   | none => .error .fileMissing
   | some .corrupt => .error .corruptArtifact
   | some (.valid m) => .ok m, [path])

/-- Module initialization of `app/main.py`: `model = joblib.load("app/model.pkl")`.
An exception propagates out of the module load, so the result is the server
state or the error; the second component is the list of paths read. -/
def startup (fs : FileSystem) : Except LoadError ServerState × List String :=
  let (r, reads) := joblib_load fs "app/model.pkl"
  (r.map (fun m => ⟨m⟩), reads)

/-- The whole service lifetime: start up, then serve the requests.  If startup
fails the error propagates and no request is answered. -/
def serve (fs : FileSystem) (reqs : List Request) :
    Except LoadError (List Response) :=
  match (startup fs).1 with
  | .error e => .error e
  | .ok s => .ok (runServer s reqs).1

/-! ## Shared helper lemmas -/

theorem validate_error_of_getField_error (p : Payload) (n : String)
    (e : FieldError) (hn : n ∈ requiredFields)
    (he : getField p n = .error e) :
    validateIrisInput p = .error (fieldErrors p) := by
  have hn4 : n = "sepal_length" ∨ n = "sepal_width" ∨
      n = "petal_length" ∨ n = "petal_width" := by
    simpa [requiredFields] using hn
  unfold validateIrisInput
  rcases h1 : getField p "sepal_length" with e1 | q1 <;>
    rcases h2 : getField p "sepal_width" with e2 | q2 <;>
      rcases h3 : getField p "petal_length" with e3 | q3 <;>
        rcases h4 : getField p "petal_width" with e4 | q4 <;>
          rcases hn4 with rfl | rfl | rfl | rfl <;>
            simp_all

theorem getField_error_mem_fieldErrors (p : Payload) (n : String)
    (e : FieldError) (hn : n ∈ requiredFields)
    (he : getField p n = .error e) :
    e ∈ fieldErrors p := by
  unfold fieldErrors
  exact List.mem_filterMap.mpr ⟨n, hn, by rw [he]⟩

theorem validate_ok_of_getField_ok (p : Payload)
    (q1 q2 q3 q4 : ℚ)
    (h1 : getField p "sepal_length" = .ok q1)
    (h2 : getField p "sepal_width" = .ok q2)
    (h3 : getField p "petal_length" = .ok q3)
    (h4 : getField p "petal_width" = .ok q4) :
    validateIrisInput p = .ok ⟨q1, q2, q3, q4⟩ := by
  unfold validateIrisInput
  rw [h1, h2, h3, h4]

/-! ## Claim theorems -/

theorem respond_valid (m : FittedClassifier) (p : Payload)
    (inp : IrisInput) (h : validateIrisInput p = .ok inp) :
    respond m (.predictPost p) =
      .ok200predict ⟨m.predictFn
        [inp.sepal_length, inp.sepal_width, inp.petal_length,
         inp.petal_width]⟩ := by
  simp [respond, h, predict, FittedClassifier.predictBatch]

/-- C1: on a payload that validates, the `predict` handler assembles the four
values into one feature vector in the fixed order
`[sepal_length, sepal_width, petal_length, petal_width]`, passes that vector
to the in-memory model's inference call, and returns the resulting class label
as the integer field `prediction` of the response. -/
theorem predict_assembles_ordered_vector (m : FittedClassifier) (p : Payload)
    (inp : IrisInput) (h : validateIrisInput p = .ok inp) :
    respond m (.predictPost p) =
      .ok200predict ⟨m.predictFn
        [inp.sepal_length, inp.sepal_width, inp.petal_length,
         inp.petal_width]⟩ :=
  respond_valid m p inp h

/-- Model used to instantiate witnesses: predicts the first feature. -/
def mWit : FittedClassifier := ⟨fun v => Int.floor (v.headD 0)⟩

/-- A second, observationally different witness model. -/
def mWit2 : FittedClassifier := ⟨fun v => Int.floor (v.headD 0) + 1⟩

/-- A fully valid witness payload. -/
def pWit : Payload :=
  [("sepal_length", .num 1), ("sepal_width", .num 2),
   ("petal_length", .num 3), ("petal_width", .num 4)]

theorem predict_assembles_ordered_vector_witness :
    validateIrisInput pWit = .ok ⟨1, 2, 3, 4⟩ ∧
    respond mWit (.predictPost pWit) =
      .ok200predict ⟨mWit.predictFn [1, 2, 3, 4]⟩ :=
  ⟨by rfl, predict_assembles_ordered_vector mWit pWit ⟨1, 2, 3, 4⟩ (by rfl)⟩

/-- C2: a predict request with a required field missing or not coercible to a
float is rejected with a structured validation error that names the field, and
the model is never invoked: the response is the same whichever model is
loaded (the error branch does not mention the model). -/
theorem invalid_request_rejected_before_model (p : Payload) (n : String)
    (e : FieldError) (m m' : FittedClassifier)
    (hn : n ∈ requiredFields) (he : getField p n = .error e) :
    respond m (.predictPost p) = .err422 (fieldErrors p) ∧
    e ∈ fieldErrors p ∧
    respond m (.predictPost p) = respond m' (.predictPost p) := by
  have hv := validate_error_of_getField_error p n e hn he
  refine ⟨by simp [respond, hv], getField_error_mem_fieldErrors p n e hn he, ?_⟩
  simp [respond, hv]

/-- A payload with one non-numeric field (and the rest missing). -/
def pBad : Payload := [("sepal_length", .nonNumStr "abc"), ("sepal_width", .num 1)]

theorem invalid_request_rejected_before_model_witness :
    ("sepal_length" ∈ requiredFields ∧
      getField pBad "sepal_length" = .error ⟨"sepal_length", .notNumeric⟩) ∧
    (respond mWit (.predictPost pBad) = .err422 (fieldErrors pBad) ∧
      (⟨"sepal_length", .notNumeric⟩ : FieldError) ∈ fieldErrors pBad ∧
      respond mWit (.predictPost pBad) = respond mWit2 (.predictPost pBad)) :=
  ⟨⟨by decide, by rfl⟩,
    invalid_request_rejected_before_model pBad "sepal_length"
      ⟨"sepal_length", .notNumeric⟩ mWit mWit2 (by decide) (by rfl)⟩

/-- C4: both handlers are stateless, idempotent, pure functions of the loaded
model and the payload: running any request sequence leaves the server state
(including the loaded model) unchanged and answers each request exactly as it
would be answered alone, regardless of the requests handled around it. -/
theorem handlers_stateless_pure (s : ServerState) (reqs : List Request)
    (pre post : List Request) (r : Request) :
    runServer s reqs = (reqs.map (respond s.model), s) ∧
    (runServer s (pre ++ r :: post)).1[pre.length]? =
      some (respond s.model r) := by
  refine ⟨runServer_eq s reqs, ?_⟩
  rw [runServer_eq, List.map_append, List.map_cons,
    List.getElem?_append_right (by simp)]
  simp

/-- C6: the welcome operation always returns the fixed greeting payload,
whatever request history preceded it. -/
theorem welcome_fixed_greeting (s : ServerState) (hist : List Request) :
    handle (runServer s hist).2 .root =
      (.ok200root ⟨"Welcome to the ML Model API"⟩, (runServer s hist).2) := by
  simp [handle, respond, read_root]

/-- Modelled from the spec: the fitted artifact `app/model.pkl` produced by
the fixed-seed training run is not part of the sources; the spec's sample
scenario pins its inference output at the feature vector
`[6.3, 3.3, 6.0, 2.5]` to the class label 2.  Elsewhere it is given an
arbitrary iris label. -/
def pkl_model : FittedClassifier :=
  ⟨fun x => if x = [63/10, 33/10, 6, 25/10] then 2 else 0⟩

/-- The sample-scenario request body. -/
def c9Payload : Payload :=
  [("sepal_length", .num (63/10)), ("sepal_width", .num (33/10)),
   ("petal_length", .num 6), ("petal_width", .num (25/10))]

/-- C9: posting the sample-scenario body to `/predict/` under the trained
model returns the body with prediction 2. -/
theorem sample_scenario_prediction :
    respond pkl_model (.predictPost c9Payload) = .ok200predict ⟨2⟩ := by
  have hv : validateIrisInput c9Payload = .ok ⟨63/10, 33/10, 6, 25/10⟩ :=
    validate_ok_of_getField_ok c9Payload (63/10) (33/10) 6 (25/10)
      rfl rfl rfl rfl
  simp [respond, hv, predict, FittedClassifier.predictBatch, pkl_model]

/-- C10: two predict payloads that agree on the four named fields — however
many additional, unrecognized fields either carries — validate to the same
typed input and receive identical responses: extra fields are silently
ignored and never influence validation or the prediction. -/
theorem extra_fields_ignored (m : FittedClassifier) (p1 p2 : Payload)
    (hagree : ∀ n ∈ requiredFields, p1.lookup n = p2.lookup n)
    (hvalid : ∀ n ∈ requiredFields, (getField p1 n).isOk = true) :
    (∃ inp, validateIrisInput p1 = .ok inp ∧ validateIrisInput p2 = .ok inp) ∧
    respond m (.predictPost p1) = respond m (.predictPost p2) := by
  have hg : ∀ n ∈ requiredFields, getField p1 n = getField p2 n := by
    intro n hn
    unfold getField
    rw [hagree n hn]
  have hok : ∀ n ∈ requiredFields, ∃ q, getField p1 n = .ok q := by
    intro n hn
    have hv := hvalid n hn
    rcases hx : getField p1 n with e | q
    · rw [hx] at hv
      simp [Except.isOk, Except.toBool] at hv
    · exact ⟨q, rfl⟩
  obtain ⟨q1, h1⟩ := hok "sepal_length" (by decide)
  obtain ⟨q2, h2⟩ := hok "sepal_width" (by decide)
  obtain ⟨q3, h3⟩ := hok "petal_length" (by decide)
  obtain ⟨q4, h4⟩ := hok "petal_width" (by decide)
  have hv1 : validateIrisInput p1 = .ok ⟨q1, q2, q3, q4⟩ :=
    validate_ok_of_getField_ok p1 q1 q2 q3 q4 h1 h2 h3 h4
  have hv2 : validateIrisInput p2 = .ok ⟨q1, q2, q3, q4⟩ :=
    validate_ok_of_getField_ok p2 q1 q2 q3 q4
      (hg "sepal_length" (by decide) ▸ h1)
      (hg "sepal_width" (by decide) ▸ h2)
      (hg "petal_length" (by decide) ▸ h3)
      (hg "petal_width" (by decide) ▸ h4)
  exact ⟨⟨⟨q1, q2, q3, q4⟩, hv1, hv2⟩, by simp [respond, hv1, hv2]⟩

/-- The valid witness payload extended with an unrecognized field. -/
def pWitExtra : Payload := pWit ++ [("species", .nonNumStr "setosa")]

theorem extra_fields_ignored_witness :
    (∀ n ∈ requiredFields, pWit.lookup n = pWitExtra.lookup n) ∧
    (∀ n ∈ requiredFields, (getField pWit n).isOk = true) ∧
    ((∃ inp, validateIrisInput pWit = .ok inp ∧
        validateIrisInput pWitExtra = .ok inp) ∧
      respond mWit (.predictPost pWit) = respond mWit (.predictPost pWitExtra)) :=
  ⟨by decide, by decide,
    extra_fields_ignored mWit pWit pWitExtra (by decide) (by decide)⟩

theorem iris_target_mem (z : ℤ) (hz : z ∈ iris_target) :
    z ∈ ({0, 1, 2} : Set ℤ) := by
  have : z = 0 ∨ z = 1 ∨ z = 2 := by
    simpa [iris_target, List.mem_append, List.mem_replicate] using hz
  rcases this with rfl | rfl | rfl <;> simp

theorem fitForest_mem (sel : Selector) (Xtr : List (List ℚ)) (ytr : List ℤ)
    (x : List ℚ) (S : Set ℤ) (h0 : (0 : ℤ) ∈ S) (hy : ∀ z ∈ ytr, z ∈ S) :
    fitForest sel Xtr ytr x ∈ S := by
  unfold fitForest
  rcases hg : ytr[sel Xtr ytr x]? with _ | z
  · cases ytr with
    | nil => simpa using h0
    | cons a t => exact hy a (by simp)
  · obtain ⟨hlt, hget⟩ := List.getElem?_eq_some_iff.mp hg
    exact hget ▸ hy _ (List.getElem_mem hlt)

theorem y_train_mem (X : List (List ℚ))
    (shuffle : ℕ → List (List ℚ × ℤ) → List (List ℚ × ℤ))
    (hperm : (shuffle 42 (X.zip iris_target)).Perm (X.zip iris_target))
    (z : ℤ)
    (hz : z ∈ (train_test_split shuffle X iris_target (1/5) 42).y_train) :
    z ∈ iris_target := by
  unfold train_test_split at hz
  simp only [List.mem_map] at hz
  obtain ⟨pr, hpr, rfl⟩ := hz
  have hmem : pr ∈ shuffle 42 (X.zip iris_target) :=
    List.drop_subset _ _ hpr
  exact (List.of_mem_zip (hperm.mem_iff.mp hmem)).2

/-- C3: any prediction the service returns under a model produced by the
trainer (whatever randomness the seed realized and whatever the forest
learned) is a label of the three-class iris training set, hence in
`{0, 1, 2}`. -/
theorem prediction_in_label_space (X : List (List ℚ))
    (shuffle : ℕ → List (List ℚ × ℤ) → List (List ℚ × ℤ)) (sel : Selector)
    (p : Payload) (r : PredictResponse)
    (hperm : (shuffle 42 (X.zip iris_target)).Perm (X.zip iris_target))
    (h : respond (create_model X shuffle sel).1 (.predictPost p) =
      .ok200predict r) :
    r.prediction ∈ ({0, 1, 2} : Set ℤ) := by
  rcases hv : validateIrisInput p with errs | inp
  · simp [respond, hv] at h
  · rw [respond_valid _ p inp hv] at h
    obtain rfl : _ = r := by injection h
    show (create_model X shuffle sel).1.predictFn _ ∈ ({0, 1, 2} : Set ℤ)
    refine fitForest_mem _ _ _ _ _ (by simp) ?_
    intro z hz
    exact iris_target_mem z (y_train_mem X shuffle hperm z hz)

/-- Witness feature matrix: 150 four-dimensional rows. -/
def X0 : List (List ℚ) := List.replicate 150 (List.replicate 4 0)

/-- Witness randomness: the seed realizes the identity permutation. -/
def shuffle0 : ℕ → List (List ℚ × ℤ) → List (List ℚ × ℤ) := fun _ l => l

/-- Witness decision structure: always pick training sample 0. -/
def sel0 : Selector := fun _ _ _ => 0

set_option maxRecDepth 4000 in
theorem respond_trained_model_at_pWit :
    respond (create_model X0 shuffle0 sel0).1 (.predictPost pWit) =
      .ok200predict ⟨0⟩ := by
  have hv : validateIrisInput pWit = .ok ⟨1, 2, 3, 4⟩ := by rfl
  rw [respond_valid _ _ _ hv]
  have hceil : (⌈(1/5 : ℚ) * ((X0.length : ℕ) : ℚ)⌉).toNat = 30 := by
    have hl : X0.length = 150 := by simp [X0]
    rw [hl]
    have h30 : (1/5 : ℚ) * ((150 : ℕ) : ℚ) = ((30 : ℤ) : ℚ) := by norm_num
    rw [h30, Int.ceil_intCast]
    rfl
  simp only [create_model, train_test_split, shuffle0, fitForest]
  rw [hceil]
  rfl

theorem prediction_in_label_space_witness :
    (shuffle0 42 (X0.zip iris_target)).Perm (X0.zip iris_target) ∧
    respond (create_model X0 shuffle0 sel0).1 (.predictPost pWit) =
      .ok200predict ⟨0⟩ ∧
    (0 : ℤ) ∈ ({0, 1, 2} : Set ℤ) :=
  ⟨List.Perm.refl _, respond_trained_model_at_pWit,
    prediction_in_label_space X0 shuffle0 sel0 pWit ⟨0⟩
      (List.Perm.refl _) respond_trained_model_at_pWit⟩

theorem split_lengths (X : List (List ℚ))
    (shuffle : ℕ → List (List ℚ × ℤ) → List (List ℚ × ℤ))
    (hX : X.length = 150)
    (hperm : (shuffle 42 (X.zip iris_target)).Perm (X.zip iris_target)) :
    (train_test_split shuffle X iris_target (1/5) 42).X_train.length = 120 ∧
    (train_test_split shuffle X iris_target (1/5) 42).X_test.length = 30 ∧
    (train_test_split shuffle X iris_target (1/5) 42).y_train.length = 120 := by
  have hiris : iris_target.length = 150 := by simp [iris_target]
  have hlen : (shuffle 42 (X.zip iris_target)).length = 150 := by
    rw [hperm.length_eq, List.length_zip, hX, hiris]
    simp
  have hceil : (⌈(1/5 : ℚ) * (X.length : ℚ)⌉).toNat = 30 := by
    rw [hX]
    have h30 : (1/5 : ℚ) * ((150 : ℕ) : ℚ) = ((30 : ℤ) : ℚ) := by norm_num
    rw [h30, Int.ceil_intCast]
    rfl
  unfold train_test_split
  simp only [List.length_map, List.length_drop, List.length_take, hceil, hlen]
  norm_num

/-- C5: the trainer loads all 150 labeled iris samples, splits them 120/30
(80%/20%) passing `test_size = 1/5` and seed 42, fits the forest on exactly
the 120-sample training subset, dumps the fitted model to `app/model.pkl`,
prints the completion message, and emits no evaluation metric. -/
theorem trainer_pipeline (X : List (List ℚ))
    (shuffle : ℕ → List (List ℚ × ℤ) → List (List ℚ × ℤ)) (sel : Selector)
    (hX : X.length = 150)
    (hperm : (shuffle 42 (X.zip iris_target)).Perm (X.zip iris_target)) :
    (create_model X shuffle sel).2 =
      [TrainerStep.loadIris 150 150,
       TrainerStep.splitCall (1/5) 42 120 30,
       TrainerStep.fitCall 120 120,
       TrainerStep.dump "app/model.pkl"
         (Artifact.valid
           ⟨fitForest sel
             (train_test_split shuffle X iris_target (1/5) 42).X_train
             (train_test_split shuffle X iris_target (1/5) 42).y_train⟩),
       TrainerStep.printLine "Model trained and saved at app/model.pkl"] ∧
    (create_model X shuffle sel).1 =
      ⟨fitForest sel (train_test_split shuffle X iris_target (1/5) 42).X_train
        (train_test_split shuffle X iris_target (1/5) 42).y_train⟩ ∧
    ∀ s ∈ (create_model X shuffle sel).2, ∀ v : ℚ,
      s ≠ TrainerStep.emitMetric v := by
  obtain ⟨hXtr, hXte, hytr⟩ := split_lengths X shuffle hX hperm
  have hiris : iris_target.length = 150 := by simp [iris_target]
  refine ⟨?_, rfl, ?_⟩
  · simp only [create_model]
    rw [hX, hiris, hXtr, hXte, hytr]
  · intro s hs v
    simp only [create_model, List.mem_cons, List.not_mem_nil, or_false] at hs
    rcases hs with rfl | rfl | rfl | rfl | rfl <;> simp

theorem trainer_pipeline_witness :
    X0.length = 150 ∧
    (shuffle0 42 (X0.zip iris_target)).Perm (X0.zip iris_target) ∧
    ((create_model X0 shuffle0 sel0).2 =
      [TrainerStep.loadIris 150 150,
       TrainerStep.splitCall (1/5) 42 120 30,
       TrainerStep.fitCall 120 120,
       TrainerStep.dump "app/model.pkl"
         (Artifact.valid
           ⟨fitForest sel0
             (train_test_split shuffle0 X0 iris_target (1/5) 42).X_train
             (train_test_split shuffle0 X0 iris_target (1/5) 42).y_train⟩),
       TrainerStep.printLine "Model trained and saved at app/model.pkl"] ∧
     (create_model X0 shuffle0 sel0).1 =
       ⟨fitForest sel0
         (train_test_split shuffle0 X0 iris_target (1/5) 42).X_train
         (train_test_split shuffle0 X0 iris_target (1/5) 42).y_train⟩ ∧
     ∀ s ∈ (create_model X0 shuffle0 sel0).2, ∀ v : ℚ,
       s ≠ TrainerStep.emitMetric v) :=
  ⟨by simp [X0], List.Perm.refl _,
    trainer_pipeline X0 shuffle0 sel0 (by simp [X0]) (List.Perm.refl _)⟩

/-- C7: startup reads the artifact from `app/model.pkl` exactly once, and when
the file is missing or its content corrupt, the load error propagates and no
request of the whole service lifetime is answered. -/
theorem startup_loads_once_and_fails_fatally (fs : FileSystem)
    (reqs : List Request)
    (h : fs "app/model.pkl" = none ∨ fs "app/model.pkl" = some .corrupt) :
    (startup fs).2 = ["app/model.pkl"] ∧ ∃ e, serve fs reqs = .error e := by
  refine ⟨rfl, ?_⟩
  rcases h with h | h
  · exact ⟨.fileMissing, by simp [serve, startup, joblib_load, Except.map, h]⟩
  · exact ⟨.corruptArtifact,
      by simp [serve, startup, joblib_load, Except.map, h]⟩

/-- Witness filesystem: nothing stored anywhere. -/
def fs0 : FileSystem := fun _ => none

theorem startup_loads_once_and_fails_fatally_witness :
    (fs0 "app/model.pkl" = none ∨ fs0 "app/model.pkl" = some .corrupt) ∧
    ((startup fs0).2 = ["app/model.pkl"] ∧
      ∃ e, serve fs0 [.root] = .error e) :=
  ⟨Or.inl rfl,
    startup_loads_once_and_fails_fatally fs0 [.root] (Or.inl rfl)⟩

/-- C8: the only persistent effect of a trainer run is storing the fitted
model at `app/model.pkl`, overwriting whatever the filesystem held there
before; every other path is left exactly as it was. -/
theorem trainer_frame (X : List (List ℚ))
    (shuffle : ℕ → List (List ℚ × ℤ) → List (List ℚ × ℤ)) (sel : Selector)
    (fs : FileSystem) (q : String) (hq : q ≠ "app/model.pkl") :
    runSteps fs (create_model X shuffle sel).2 "app/model.pkl" =
      some (.valid (create_model X shuffle sel).1) ∧
    runSteps fs (create_model X shuffle sel).2 q = fs q := by
  constructor
  · simp [runSteps, create_model, applyStep]
  · simp [runSteps, create_model, applyStep, hq]

theorem trainer_frame_witness :
    "app/other.txt" ≠ "app/model.pkl" ∧
    (runSteps fs0 (create_model X0 shuffle0 sel0).2 "app/model.pkl" =
       some (.valid (create_model X0 shuffle0 sel0).1) ∧
     runSteps fs0 (create_model X0 shuffle0 sel0).2 "app/other.txt" =
       fs0 "app/other.txt") :=
  ⟨by decide, trainer_frame X0 shuffle0 sel0 fs0 "app/other.txt" (by decide)⟩

end IrisApp
